import Mathlib

/-!
Verification of the Redis caching and change-notification layer
(src/backend/cache.py): the value/serialization model, the CacheService
key-value operations, the PubSubService notifier, and the lazily
initialized module-level connection.
-/

/--
Python values passed across the cache boundary.  The JSON-representable
constructors mirror what json.dumps/json.loads handle natively (objects,
arrays, strings, integers, booleans, null); the constructor other
represents any non-JSON-serializable Python object, carrying the string
produced by str (the default=str fallback of json.dumps).
-/
inductive PyVal where
  | null : PyVal
  | bool (b : Bool) : PyVal
  | int (n : Int) : PyVal
  | str (s : String) : PyVal
  | list (xs : List PyVal) : PyVal
  | dict (kvs : List (String × PyVal)) : PyVal
  | other (s : String) : PyVal

mutual
/-- Structural equality of Python values (the deep-equality of the spec). -/
def pyBeq : PyVal → PyVal → Bool
  | .null, .null => true
  | .bool a, .bool b => a == b
  | .int a, .int b => a == b
  | .str a, .str b => a == b
  | .list xs, .list ys => pyBeqList xs ys
  | .dict xs, .dict ys => pyBeqKVs xs ys
  | .other a, .other b => a == b
  | _, _ => false

def pyBeqList : List PyVal → List PyVal → Bool
  | [], [] => true
  | x :: xs, y :: ys => pyBeq x y && pyBeqList xs ys
  | _, _ => false

def pyBeqKVs : List (String × PyVal) → List (String × PyVal) → Bool
  | [], [] => true
  | (k, v) :: xs, (l, w) :: ys => k == l && pyBeq v w && pyBeqKVs xs ys
  | _, _ => false
end

mutual
theorem pyBeq_refl : ∀ v : PyVal, pyBeq v v = true
  | .null => rfl
  | .bool b => by simp [pyBeq]
  | .int n => by simp [pyBeq]
  | .str s => by simp [pyBeq]
  | .list xs => pyBeqList_refl xs
  | .dict kvs => pyBeqKVs_refl kvs
  | .other s => by simp [pyBeq]

theorem pyBeqList_refl : ∀ xs : List PyVal, pyBeqList xs xs = true
  | [] => rfl
  | x :: xs => by
      simp only [pyBeqList, Bool.and_eq_true]
      exact ⟨pyBeq_refl x, pyBeqList_refl xs⟩

theorem pyBeqKVs_refl : ∀ xs : List (String × PyVal), pyBeqKVs xs xs = true
  | [] => rfl
  | (k, v) :: xs => by
      simp only [pyBeqKVs, Bool.and_eq_true]
      exact ⟨⟨by simp, pyBeq_refl v⟩, pyBeqKVs_refl xs⟩
end

mutual
theorem eq_of_pyBeq : ∀ v w : PyVal, pyBeq v w = true → v = w
  | .null, .null, _ => rfl
  | .bool a, .bool b, h => by simpa [pyBeq] using h
  | .int a, .int b, h => by simpa [pyBeq] using h
  | .str a, .str b, h => by simpa [pyBeq] using h
  | .list xs, .list ys, h => congrArg PyVal.list (eqList_of_pyBeqList xs ys h)
  | .dict xs, .dict ys, h => congrArg PyVal.dict (eqKVs_of_pyBeqKVs xs ys h)
  | .other a, .other b, h => by simpa [pyBeq] using h
  | .null, .bool _, h | .null, .int _, h | .null, .str _, h | .null, .list _, h | .null, .dict _, h | .null, .other _, h => by simp [pyBeq] at h
  | .bool _, .null, h | .bool _, .int _, h | .bool _, .str _, h | .bool _, .list _, h | .bool _, .dict _, h | .bool _, .other _, h => by simp [pyBeq] at h
  | .int _, .null, h | .int _, .bool _, h | .int _, .str _, h | .int _, .list _, h | .int _, .dict _, h | .int _, .other _, h => by simp [pyBeq] at h
  | .str _, .null, h | .str _, .bool _, h | .str _, .int _, h | .str _, .list _, h | .str _, .dict _, h | .str _, .other _, h => by simp [pyBeq] at h
  | .list _, .null, h | .list _, .bool _, h | .list _, .int _, h | .list _, .str _, h | .list _, .dict _, h | .list _, .other _, h => by simp [pyBeq] at h
  | .dict _, .null, h | .dict _, .bool _, h | .dict _, .int _, h | .dict _, .str _, h | .dict _, .list _, h | .dict _, .other _, h => by simp [pyBeq] at h
  | .other _, .null, h | .other _, .bool _, h | .other _, .int _, h | .other _, .str _, h | .other _, .list _, h | .other _, .dict _, h => by simp [pyBeq] at h

theorem eqList_of_pyBeqList : ∀ xs ys : List PyVal, pyBeqList xs ys = true → xs = ys
  | [], [], _ => rfl
  | x :: xs, y :: ys, h => by
      simp only [pyBeqList, Bool.and_eq_true] at h
      rw [eq_of_pyBeq x y h.1, eqList_of_pyBeqList xs ys h.2]
  | [], _ :: _, h => by simp [pyBeqList] at h
  | _ :: _, [], h => by simp [pyBeqList] at h

theorem eqKVs_of_pyBeqKVs : ∀ xs ys : List (String × PyVal), pyBeqKVs xs ys = true → xs = ys
  | [], [], _ => rfl
  | (k, v) :: xs, (l, w) :: ys, h => by
      simp only [pyBeqKVs, Bool.and_eq_true] at h
      obtain ⟨⟨hk, hv⟩, ht⟩ := h
      rw [eq_of_pyBeq v w hv, eqKVs_of_pyBeqKVs xs ys ht, eq_of_beq hk]
  | [], _ :: _, h => by simp [pyBeqKVs] at h
  | _ :: _, [], h => by simp [pyBeqKVs] at h
end

instance : DecidableEq PyVal := fun v w =>
  if h : pyBeq v w = true then
    .isTrue (eq_of_pyBeq v w h)
  else
    .isFalse (fun he => h (he ▸ pyBeq_refl v))

mutual
/--
The effect of json.dumps(v, default=str) followed by json.loads: every
JSON-representable component is preserved exactly, while every
non-JSON-serializable component is replaced by its str representation.
The cache stores this canonical serialized form.
-/
def serialize : PyVal → PyVal
  | .null => .null
  | .bool b => .bool b
  | .int n => .int n
  | .str s => .str s
  | .list xs => .list (serializeList xs)
  | .dict kvs => .dict (serializeKVs kvs)
  | .other s => .str s

def serializeList : List PyVal → List PyVal
  | [] => []
  | v :: vs => serialize v :: serializeList vs

def serializeKVs : List (String × PyVal) → List (String × PyVal)
  | [] => []
  | (k, v) :: kvs => (k, serialize v) :: serializeKVs kvs
end

mutual
/-- True when a value is built only from JSON primitives (no other component). -/
def jsonOnly : PyVal → Bool
  | .null => true
  | .bool _ => true
  | .int _ => true
  | .str _ => true
  | .list xs => jsonOnlyList xs
  | .dict kvs => jsonOnlyKVs kvs
  | .other _ => false

def jsonOnlyList : List PyVal → Bool
  | [] => true
  | v :: vs => jsonOnly v && jsonOnlyList vs

def jsonOnlyKVs : List (String × PyVal) → Bool
  | [] => true
  | (_, v) :: kvs => jsonOnly v && jsonOnlyKVs kvs
end

mutual
theorem serialize_of_jsonOnly : ∀ v : PyVal, jsonOnly v = true → serialize v = v
  | .null, _ => rfl
  | .bool _, _ => rfl
  | .int _, _ => rfl
  | .str _, _ => rfl
  | .list xs, h => by
      simp only [serialize]
      exact congrArg PyVal.list (serializeList_of_jsonOnly xs (by simpa [jsonOnly] using h))
  | .dict kvs, h => by
      simp only [serialize]
      exact congrArg PyVal.dict (serializeKVs_of_jsonOnly kvs (by simpa [jsonOnly] using h))

theorem serializeList_of_jsonOnly : ∀ xs : List PyVal, jsonOnlyList xs = true → serializeList xs = xs
  | [], _ => rfl
  | v :: vs, h => by
      simp only [jsonOnlyList, Bool.and_eq_true] at h
      simp only [serializeList]
      rw [serialize_of_jsonOnly v h.1, serializeList_of_jsonOnly vs h.2]

theorem serializeKVs_of_jsonOnly : ∀ kvs : List (String × PyVal), jsonOnlyKVs kvs = true → serializeKVs kvs = kvs
  | [], _ => rfl
  | (k, v) :: kvs, h => by
      simp only [jsonOnlyKVs, Bool.and_eq_true] at h
      simp only [serializeKVs]
      rw [serialize_of_jsonOnly v h.1, serializeKVs_of_jsonOnly kvs h.2]
end

mutual
theorem jsonOnly_serialize : ∀ v : PyVal, jsonOnly (serialize v) = true
  | .null => rfl
  | .bool _ => rfl
  | .int _ => rfl
  | .str _ => rfl
  | .list xs => by
      simp only [serialize, jsonOnly]
      exact jsonOnlyList_serializeList xs
  | .dict kvs => by
      simp only [serialize, jsonOnly]
      exact jsonOnlyKVs_serializeKVs kvs
  | .other _ => rfl

theorem jsonOnlyList_serializeList : ∀ xs : List PyVal, jsonOnlyList (serializeList xs) = true
  | [] => rfl
  | v :: vs => by
      simp only [serializeList, jsonOnlyList, Bool.and_eq_true]
      exact ⟨jsonOnly_serialize v, jsonOnlyList_serializeList vs⟩

theorem jsonOnlyKVs_serializeKVs : ∀ kvs : List (String × PyVal), jsonOnlyKVs (serializeKVs kvs) = true
  | [] => rfl
  | (_, v) :: kvs => by
      simp only [serializeKVs, jsonOnlyKVs, Bool.and_eq_true]
      exact ⟨jsonOnly_serialize v, jsonOnlyKVs_serializeKVs kvs⟩
end

/-- SHORT_TTL constant of CacheService (seconds). -/
def CacheService.SHORT_TTL : Int := 60

/-- MEDIUM_TTL constant of CacheService (seconds); the default TTL of set. -/
def CacheService.MEDIUM_TTL : Int := 300

/-- LONG_TTL constant of CacheService (seconds). -/
def CacheService.LONG_TTL : Int := 3600

/-- Key namespace for products. -/
def CacheService.PREFIX_PRODUCTS : String := "products:"

/-- Key namespace for categories. -/
def CacheService.PREFIX_CATEGORIES : String := "categories:"

/-- Key namespace for car brands. -/
def CacheService.PREFIX_CAR_BRANDS : String := "car_brands:"

/-- Key namespace for car models. -/
def CacheService.PREFIX_CAR_MODELS : String := "car_models:"

/-- Key namespace for product brands. -/
def CacheService.PREFIX_PRODUCT_BRANDS : String := "product_brands:"

/-- Key namespace for sync bookkeeping. -/
def CacheService.PREFIX_SYNC : String := "sync:"

/--
Python expression x or d where x is an optional integer: d when x is None
or 0 (both falsy in Python), x otherwise.  Embeds the source expressions
of the form ttl or CacheService.MEDIUM_TTL.
-/
def pyOrInt : Option Int → Int → Int
  | none, d => d
  | some t, d => if t = 0 then d else t

/--
One Redis cache entry: key, the canonical serialized value (the store
holds the json.dumps string; it is represented here by the PyVal tree it
parses back to, which loses nothing because dumps is injective on these
trees), and the TTL in seconds it was set with.
-/
structure Entry where
  key : String
  value : PyVal
  ttl : Int
deriving DecidableEq

/--
State of the backing Redis instance visible to this layer: the key-value
store (one entry per live key) and the ordered log of published pub/sub
messages.  The list holds at most one entry per key on every state
reachable through CacheService, and lookups take the first match.
-/
structure SysState where
  store : List Entry
  published : List (String × PyVal)
deriving DecidableEq

/--
Body of the try block of CacheService.get.  The fail flag states that the
transport raises during this call (connection refused, timeout); the
raised exception is the error branch.  A present value is never the empty
string (json.dumps output is nonempty), so the Python truthiness test
if value is equivalent to the presence test, and json.loads returns the
stored tree; an absent key makes r.get return None and the function falls
through to return None.
-/
def CacheService.getAttempt (fail : Bool) (st : SysState) (key : String) : Except String PyVal :=
  if fail then .error "connection error"
  else
    match st.store.find? (fun e => e.key == key) with
    | some e => .ok e.value
    | none => .ok .null

/-- CacheService.get: the try body with the except clause that logs and returns None. -/
def CacheService.get (fail : Bool) (st : SysState) (key : String) : PyVal :=
  match CacheService.getAttempt fail st key with
  | .ok v => v
  | .error _ => .null

/--
Body of the try block of CacheService.set: ttl = ttl or MEDIUM_TTL, then
r.setex(key, ttl, json.dumps(value, default=str)).  SETEX rejects a
nonpositive expire time with an error, which the except clause will
catch; otherwise the key is overwritten with the serialized value.
-/
def CacheService.setAttempt (fail : Bool) (st : SysState) (key : String) (value : PyVal) (ttl : Option Int) : Except String SysState :=
  if fail then .error "connection error"
  else
    let t := pyOrInt ttl CacheService.MEDIUM_TTL
    if t ≤ 0 then .error "invalid expire time set"
    else .ok { st with store := ⟨key, serialize value, t⟩ :: st.store.filter (fun e => e.key != key) }

/-- CacheService.set: returns True on success, and False from the except clause. -/
def CacheService.set (fail : Bool) (st : SysState) (key : String) (value : PyVal) (ttl : Option Int) : Bool × SysState :=
  match CacheService.setAttempt fail st key value ttl with
  | .ok st2 => (true, st2)
  | .error _ => (false, st)

/-- Body of the try block of CacheService.delete: r.delete(key); its count result is ignored by the caller. -/
def CacheService.deleteAttempt (fail : Bool) (st : SysState) (key : String) : Except String (Nat × SysState) :=
  if fail then .error "connection error"
  else .ok ((st.store.filter (fun e => e.key == key)).length, { st with store := st.store.filter (fun e => e.key != key) })

/-- CacheService.delete: returns True on success (whether or not the key existed), False from the except clause. -/
def CacheService.delete (fail : Bool) (st : SysState) (key : String) : Bool × SysState :=
  match CacheService.deleteAttempt fail st key with
  | .ok r => (true, r.2)
  | .error _ => (false, st)

/--
Glob matching of the Redis SCAN MATCH option, for the star and question
mark wildcards (the only pattern forms this code base builds).
-/
def globMatch : List Char → List Char → Bool
  | [], [] => true
  | '*' :: ps, [] => globMatch ps []
  | '*' :: ps, c :: cs => globMatch ps (c :: cs) || globMatch ('*' :: ps) cs
  | '?' :: ps, _ :: cs => globMatch ps cs
  | p :: ps, c :: cs => (p == c) && globMatch ps cs
  | _ :: _, [] => false
  | [], _ :: _ => false
termination_by ps cs => (ps.length, cs.length)

/--
Body of the try block of CacheService.delete_pattern: scan_iter collects
every key matching the glob pattern, then one r.delete(*keys) removes
them and returns how many existed (all of them, the scan just saw each);
with no matching key the function returns 0 without issuing a delete.
-/
def CacheService.deletePatternAttempt (fail : Bool) (st : SysState) (pattern : String) : Except String (Nat × SysState) :=
  if fail then .error "connection error"
  else
    let keys := (st.store.filter (fun e => globMatch pattern.data e.key.data)).map (fun e => e.key)
    if keys.isEmpty then .ok (0, st)
    else .ok (keys.length, { st with store := st.store.filter (fun e => !(globMatch pattern.data e.key.data)) })

/-- CacheService.delete_pattern: the matched-key count on success, 0 from the except clause. -/
def CacheService.delete_pattern (fail : Bool) (st : SysState) (pattern : String) : Nat × SysState :=
  match CacheService.deletePatternAttempt fail st pattern with
  | .ok r => r
  | .error _ => (0, st)

/--
CacheService.invalidate_products: awaits delete_pattern on products:*
and falls off the end of the function, so Python implicitly returns None
(the first component); the count from delete_pattern is discarded.
-/
def CacheService.invalidate_products (fail : Bool) (st : SysState) : PyVal × SysState :=
  (.null, (CacheService.delete_pattern fail st (CacheService.PREFIX_PRODUCTS ++ "*")).2)

/-- CacheService.get_all_products: get at products:all. -/
def CacheService.get_all_products (fail : Bool) (st : SysState) : PyVal :=
  CacheService.get fail st (CacheService.PREFIX_PRODUCTS ++ "all")

/-- CacheService.set_all_products: set at products:all with ttl or LONG_TTL; returns None. -/
def CacheService.set_all_products (fail : Bool) (st : SysState) (products : List PyVal) (ttl : Option Int) : SysState :=
  (CacheService.set fail st (CacheService.PREFIX_PRODUCTS ++ "all") (.list products) (some (pyOrInt ttl CacheService.LONG_TTL))).2

/-- CacheService.get_all_car_brands: get at car_brands:all. -/
def CacheService.get_all_car_brands (fail : Bool) (st : SysState) : PyVal :=
  CacheService.get fail st (CacheService.PREFIX_CAR_BRANDS ++ "all")

/-- CacheService.set_all_car_brands: set at car_brands:all with ttl or LONG_TTL; returns None. -/
def CacheService.set_all_car_brands (fail : Bool) (st : SysState) (brands : List PyVal) (ttl : Option Int) : SysState :=
  (CacheService.set fail st (CacheService.PREFIX_CAR_BRANDS ++ "all") (.list brands) (some (pyOrInt ttl CacheService.LONG_TTL))).2

/-- CacheService.get_last_sync_timestamp: get at sync:timestamp:{table}. -/
def CacheService.get_last_sync_timestamp (fail : Bool) (st : SysState) (table : String) : PyVal :=
  CacheService.get fail st (CacheService.PREFIX_SYNC ++ "timestamp:" ++ table)

/-- CacheService.set_last_sync_timestamp: set at sync:timestamp:{table}, always at LONG_TTL (the signature offers no TTL parameter); returns None. -/
def CacheService.set_last_sync_timestamp (fail : Bool) (st : SysState) (table : String) (timestamp : Int) : SysState :=
  (CacheService.set fail st (CacheService.PREFIX_SYNC ++ "timestamp:" ++ table) (.int timestamp) (some CacheService.LONG_TTL)).2

/-- Products channel name of PubSubService. -/
def PubSubService.CHANNEL_PRODUCTS : String := "channel:products"

/-- Orders channel name of PubSubService. -/
def PubSubService.CHANNEL_ORDERS : String := "channel:orders"

/-- Sync channel name of PubSubService. -/
def PubSubService.CHANNEL_SYNC : String := "channel:sync"

/-- Body of the try block of PubSubService.publish: r.publish(channel, json.dumps(message, default=str)). -/
def PubSubService.publishAttempt (fail : Bool) (st : SysState) (channel : String) (message : PyVal) : Except String SysState :=
  if fail then .error "connection error"
  else .ok { st with published := st.published ++ [(channel, serialize message)] }

/-- PubSubService.publish: fire and forget; the except clause logs and the function returns None either way. -/
def PubSubService.publish (fail : Bool) (st : SysState) (channel : String) (message : PyVal) : SysState :=
  match PubSubService.publishAttempt fail st channel message with
  | .ok st2 => st2
  | .error _ => st

/-- PubSubService.notify_product_change: publish the product change dict on the products channel. -/
def PubSubService.notify_product_change (fail : Bool) (st : SysState) (product_id : String) (action : String) : SysState :=
  PubSubService.publish fail st PubSubService.CHANNEL_PRODUCTS
    (.dict [("product_id", .str product_id), ("action", .str action)])

/-- PubSubService.notify_order_change: publish the order change dict on the orders channel; user_id defaults to None, serialized as null. -/
def PubSubService.notify_order_change (fail : Bool) (st : SysState) (order_id : String) (action : String) (user_id : Option String) : SysState :=
  PubSubService.publish fail st PubSubService.CHANNEL_ORDERS
    (.dict [("order_id", .str order_id), ("action", .str action),
            ("user_id", match user_id with | some u => .str u | none => .null)])

/--
Module-level connection state: the redis_pool global (None until first
use; a constructed connection is identified by its construction index)
and a count of how many times redis.from_url ran.
-/
structure ConnState where
  redis_pool : Option Nat
  constructed : Nat
deriving DecidableEq

/-- Module load state: redis_pool starts as None and nothing was constructed. -/
def initialConnState : ConnState := ⟨none, 0⟩

/--
get_redis: when redis_pool is None it is assigned redis.from_url(...),
then the pool is returned.  The body has no await point between the None
check and the assignment, so under the asyncio cooperative scheduler the
whole body runs without interleaving; it is embedded as one atomic step.
-/
def get_redis (s : ConnState) : Nat × ConnState :=
  match s.redis_pool with
  | some r => (r, s)
  | none => (s.constructed, { redis_pool := some s.constructed, constructed := s.constructed + 1 })

/--
Runs n successive get_redis calls: the serialization of n concurrent
first-time callers under cooperative scheduling (each call body is
atomic, so every interleaving of n callers is some sequence of n whole
calls).  Returns the connections handed out, in order.
-/
def runGetRedis : Nat → ConnState → List Nat × ConnState
  | 0, s => ([], s)
  | n + 1, s =>
    let r1 := get_redis s
    let r2 := runGetRedis n r1.2
    (r1.1 :: r2.1, r2.2)

/--
Claim C1: for every key k, every JSON-serializable value v, and every TTL
t > 0, set(k, v, t) followed immediately by get(k), with no failure and
no expiry in between, succeeds and returns a value deep-equal to v.
-/
theorem set_get_roundtrip (st : SysState) (k : String) (v : PyVal) (t : Int)
    (hv : jsonOnly v = true) (ht : 0 < t) :
    (CacheService.set false st k v (some t)).1 = true ∧
    CacheService.get false (CacheService.set false st k v (some t)).2 k = v := by
  have hne : ¬ t = 0 := by omega
  have hnle : ¬ t ≤ 0 := by omega
  have hset : CacheService.set false st k v (some t) =
      (true, { st with store := ⟨k, serialize v, t⟩ :: st.store.filter (fun e => e.key != k) }) := by
    simp [CacheService.set, CacheService.setAttempt, pyOrInt, hne, hnle]
  rw [hset]
  refine ⟨rfl, ?_⟩
  simp [CacheService.get, CacheService.getAttempt, serialize_of_jsonOnly v hv]

/-- Witness for C1 at the empty store, key k, a concrete JSON list and TTL 5. -/
theorem set_get_roundtrip_witness :
    jsonOnly (PyVal.list [PyVal.int 7, PyVal.str "a"]) = true ∧ (0 : Int) < 5 ∧
    ((CacheService.set false ⟨[], []⟩ "k" (PyVal.list [PyVal.int 7, PyVal.str "a"]) (some 5)).1 = true ∧
     CacheService.get false
       (CacheService.set false ⟨[], []⟩ "k" (PyVal.list [PyVal.int 7, PyVal.str "a"]) (some 5)).2 "k" =
       PyVal.list [PyVal.int 7, PyVal.str "a"]) :=
  ⟨rfl, by decide, set_get_roundtrip ⟨[], []⟩ "k" (PyVal.list [PyVal.int 7, PyVal.str "a"]) 5 rfl (by decide)⟩

/--
Claim C2: when the transport raises after the connection attempt, no
exception reaches the caller of get, set, delete, delete_pattern or
publish: get returns the absent sentinel None, set and delete return
False, delete_pattern returns 0 and publish returns normally having
published nothing (all five are total functions here; the except clauses
in the source are the match arms of their definitions).
-/
theorem failure_sentinels (st : SysState) (k : String) (v : PyVal) (ttl : Option Int)
    (pat ch : String) (msg : PyVal) :
    CacheService.get true st k = PyVal.null ∧
    CacheService.set true st k v ttl = (false, st) ∧
    CacheService.delete true st k = (false, st) ∧
    CacheService.delete_pattern true st pat = (0, st) ∧
    PubSubService.publish true st ch msg = st :=
  ⟨rfl, rfl, rfl, rfl, rfl⟩

/-- Evaluation of the Redis star glob for products:* on the four keys of claim C3. -/
theorem productsGlob_keys :
    globMatch "products:*".data "products:all".data = true ∧
    globMatch "products:*".data "products:1".data = true ∧
    globMatch "products:*".data "products:2".data = true ∧
    globMatch "products:*".data "categories:tree".data = false := by
  refine ⟨?_, ?_, ?_, ?_⟩ <;> simp [globMatch]

/--
Claim C3 (amended): for every store holding exactly the keys
products:all, products:1, products:2 and categories:tree,
invalidate_products() deletes the three products:* keys, leaves
categories:tree present, and returns None; the count 3 is computed by
the underlying delete_pattern but discarded by invalidate_products.
-/
theorem invalidate_products_behavior (st : SysState)
    (hkeys : List.Perm (st.store.map Entry.key)
      ["products:all", "products:1", "products:2", "categories:tree"]) :
    (CacheService.delete_pattern false st "products:*").1 = 3 ∧
    (CacheService.invalidate_products false st).2.store =
      st.store.filter (fun e => e.key == "categories:tree") ∧
    (CacheService.invalidate_products false st).1 = PyVal.null := by
  have hpat : CacheService.PREFIX_PRODUCTS ++ "*" = "products:*" := rfl
  have hcount : (st.store.filter (fun e => globMatch "products:*".data e.key.data)).length = 3 := by
    rw [← List.countP_eq_length_filter]
    have h1 : st.store.countP (fun e => globMatch "products:*".data e.key.data) =
        (st.store.map Entry.key).countP (fun k => globMatch "products:*".data k.data) := by
      rw [List.countP_map]
      rfl
    rw [h1, hkeys.countP_eq]
    simp [List.countP, List.countP.go, productsGlob_keys.1, productsGlob_keys.2.1,
      productsGlob_keys.2.2.1, productsGlob_keys.2.2.2]
  have hmem : ∀ e ∈ st.store,
      (!(globMatch "products:*".data e.key.data)) = (e.key == "categories:tree") := by
    intro e he
    have hmap : e.key ∈ st.store.map Entry.key := List.mem_map_of_mem Entry.key he
    have hk : e.key ∈ ["products:all", "products:1", "products:2", "categories:tree"] :=
      hkeys.mem_iff.mp hmap
    simp only [List.mem_cons, List.mem_singleton, List.not_mem_nil, or_false] at hk
    rcases hk with h | h | h | h <;>
      rw [h] <;>
      simp [productsGlob_keys.1, productsGlob_keys.2.1, productsGlob_keys.2.2.1,
        productsGlob_keys.2.2.2]
  have hne : ¬ ((st.store.filter (fun e => globMatch "products:*".data e.key.data)).map
      (fun e => e.key)).isEmpty := by
    rw [List.isEmpty_iff_length_eq_zero, List.length_map, hcount]
    omega
  refine ⟨?_, ?_, rfl⟩
  · simp [CacheService.delete_pattern, CacheService.deletePatternAttempt, hne, hcount]
  · simp [CacheService.invalidate_products, CacheService.delete_pattern,
      CacheService.deletePatternAttempt, hpat, hne, List.filter_congr hmem]

/-- Witness for C3 at a concrete four-entry store. -/
theorem invalidate_products_behavior_witness :
    List.Perm
      (List.map Entry.key [⟨"products:all", PyVal.null, 60⟩, ⟨"products:1", PyVal.int 1, 60⟩,
        ⟨"products:2", PyVal.int 2, 60⟩, ⟨"categories:tree", PyVal.list [], 60⟩])
      ["products:all", "products:1", "products:2", "categories:tree"] ∧
    ((CacheService.delete_pattern false
        ⟨[⟨"products:all", PyVal.null, 60⟩, ⟨"products:1", PyVal.int 1, 60⟩,
          ⟨"products:2", PyVal.int 2, 60⟩, ⟨"categories:tree", PyVal.list [], 60⟩], []⟩
        "products:*").1 = 3 ∧
     (CacheService.invalidate_products false
        ⟨[⟨"products:all", PyVal.null, 60⟩, ⟨"products:1", PyVal.int 1, 60⟩,
          ⟨"products:2", PyVal.int 2, 60⟩, ⟨"categories:tree", PyVal.list [], 60⟩], []⟩).2.store =
       List.filter (fun e => e.key == "categories:tree")
         [⟨"products:all", PyVal.null, 60⟩, ⟨"products:1", PyVal.int 1, 60⟩,
          ⟨"products:2", PyVal.int 2, 60⟩, ⟨"categories:tree", PyVal.list [], 60⟩] ∧
     (CacheService.invalidate_products false
        ⟨[⟨"products:all", PyVal.null, 60⟩, ⟨"products:1", PyVal.int 1, 60⟩,
          ⟨"products:2", PyVal.int 2, 60⟩, ⟨"categories:tree", PyVal.list [], 60⟩], []⟩).1 =
       PyVal.null) :=
  ⟨by decide,
   invalidate_products_behavior
     ⟨[⟨"products:all", PyVal.null, 60⟩, ⟨"products:1", PyVal.int 1, 60⟩,
       ⟨"products:2", PyVal.int 2, 60⟩, ⟨"categories:tree", PyVal.list [], 60⟩], []⟩
     (by decide)⟩

/--
Counterexample to C3 as stated: on the very store the claim describes,
invalidate_products returns None (the function body never returns the
delete_pattern count), which is not the count 3.
-/
theorem invalidate_products_count_counterexample :
    (CacheService.invalidate_products false
        ⟨[⟨"products:all", PyVal.null, 60⟩, ⟨"products:1", PyVal.null, 60⟩,
          ⟨"products:2", PyVal.null, 60⟩, ⟨"categories:tree", PyVal.null, 60⟩], []⟩).1 =
      PyVal.null ∧
    PyVal.null ≠ PyVal.int 3 :=
  ⟨rfl, by simp⟩

/--
Claim C4: notify_product_change(product_id, action) publishes exactly
the JSON object with fields product_id and action on channel:products,
and notify_order_change publishes exactly the object with fields
order_id, action and user_id on channel:orders, with user_id null when
the argument is omitted (its default is None).
-/
theorem notify_message_shapes (st : SysState) (pid act oid u : String) :
    PubSubService.notify_product_change false st pid act =
      { st with published := st.published ++
          [("channel:products", PyVal.dict [("product_id", PyVal.str pid), ("action", PyVal.str act)])] } ∧
    PubSubService.notify_order_change false st oid act (some u) =
      { st with published := st.published ++
          [("channel:orders", PyVal.dict [("order_id", PyVal.str oid), ("action", PyVal.str act), ("user_id", PyVal.str u)])] } ∧
    PubSubService.notify_order_change false st oid act none =
      { st with published := st.published ++
          [("channel:orders", PyVal.dict [("order_id", PyVal.str oid), ("action", PyVal.str act), ("user_id", PyVal.null)])] } := by
  refine ⟨?_, ?_, ?_⟩ <;>
    simp [PubSubService.notify_product_change, PubSubService.notify_order_change,
      PubSubService.publish, PubSubService.publishAttempt, PubSubService.CHANNEL_PRODUCTS,
      PubSubService.CHANNEL_ORDERS, serialize, serializeKVs]

/--
Claim C5 (amended): for every list of JSON-serializable values,
set_all_car_brands with no TTL argument stores the list under the exact
key car_brands:all with LONG_TTL = 3600 seconds, and a subsequent
get_all_car_brands returns the same list in the same order.  A list
holding a non-JSON-serializable element comes back with that element
degraded to its string representation, so the restriction is necessary.
-/
theorem car_brands_roundtrip (st : SysState) (brands : List PyVal)
    (hb : jsonOnlyList brands = true) :
    CacheService.set_all_car_brands false st brands none =
      { st with store := ⟨"car_brands:all", PyVal.list brands, 3600⟩ ::
          st.store.filter (fun e => e.key != "car_brands:all") } ∧
    CacheService.get_all_car_brands false (CacheService.set_all_car_brands false st brands none) =
      PyVal.list brands := by
  have hset : CacheService.set_all_car_brands false st brands none =
      { st with store := ⟨"car_brands:all", PyVal.list brands, 3600⟩ ::
          st.store.filter (fun e => e.key != "car_brands:all") } := by
    simp [CacheService.set_all_car_brands, CacheService.set, CacheService.setAttempt, pyOrInt,
      CacheService.LONG_TTL, CacheService.PREFIX_CAR_BRANDS, serialize,
      serializeList_of_jsonOnly brands hb]
  refine ⟨hset, ?_⟩
  rw [hset]
  simp [CacheService.get_all_car_brands, CacheService.get, CacheService.getAttempt,
    CacheService.PREFIX_CAR_BRANDS]

/-- Witness for C5 at the empty store and a concrete two-element brand list. -/
theorem car_brands_roundtrip_witness :
    jsonOnlyList [PyVal.str "bmw", PyVal.str "kia"] = true ∧
    (CacheService.set_all_car_brands false ⟨[], []⟩ [PyVal.str "bmw", PyVal.str "kia"] none =
      { store := [⟨"car_brands:all", PyVal.list [PyVal.str "bmw", PyVal.str "kia"], 3600⟩],
        published := [] } ∧
     CacheService.get_all_car_brands false
       (CacheService.set_all_car_brands false ⟨[], []⟩ [PyVal.str "bmw", PyVal.str "kia"] none) =
       PyVal.list [PyVal.str "bmw", PyVal.str "kia"]) :=
  ⟨rfl, car_brands_roundtrip ⟨[], []⟩ [PyVal.str "bmw", PyVal.str "kia"] rfl⟩

/--
Counterexample to C5 as stated: a list holding a non-JSON-serializable
element (its str form being x) is not returned equal, because
json.dumps(..., default=str) degrades the element to the string x.
-/
theorem car_brands_nonjson_counterexample :
    CacheService.get_all_car_brands false
        (CacheService.set_all_car_brands false ⟨[], []⟩ [PyVal.other "x"] none) =
      PyVal.list [PyVal.str "x"] ∧
    PyVal.list [PyVal.str "x"] ≠ PyVal.list [PyVal.other "x"] :=
  ⟨rfl, by simp⟩

/--
Claim C6: set_last_sync_timestamp(table, timestamp) stores the integer
under the exact key sync:timestamp:{table} with LONG_TTL = 3600 seconds
(the signature offers the caller no TTL override), and
get_last_sync_timestamp(table) returns that integer when present and
the absent sentinel None otherwise.
-/
theorem sync_timestamp_contract (st : SysState) (table : String) (ts : Int) :
    CacheService.set_last_sync_timestamp false st table ts =
      { st with store := ⟨"sync:timestamp:" ++ table, PyVal.int ts, 3600⟩ ::
          st.store.filter (fun e => e.key != "sync:timestamp:" ++ table) } ∧
    CacheService.get_last_sync_timestamp false
        (CacheService.set_last_sync_timestamp false st table ts) table = PyVal.int ts ∧
    (st.store.find? (fun e => e.key == "sync:timestamp:" ++ table) = none →
      CacheService.get_last_sync_timestamp false st table = PyVal.null) := by
  have hset : CacheService.set_last_sync_timestamp false st table ts =
      { st with store := ⟨"sync:timestamp:" ++ table, PyVal.int ts, 3600⟩ ::
          st.store.filter (fun e => e.key != "sync:timestamp:" ++ table) } := by
    simp [CacheService.set_last_sync_timestamp, CacheService.set, CacheService.setAttempt,
      pyOrInt, CacheService.LONG_TTL, CacheService.PREFIX_SYNC, serialize, String.append_assoc]
  refine ⟨hset, ?_, ?_⟩
  · rw [hset]
    simp [CacheService.get_last_sync_timestamp, CacheService.get, CacheService.getAttempt,
      CacheService.PREFIX_SYNC, String.append_assoc]
  · intro habs
    simp [CacheService.get_last_sync_timestamp, CacheService.get, CacheService.getAttempt,
      CacheService.PREFIX_SYNC, String.append_assoc, habs]

/-- Witness for C6 at the empty store, table orders and timestamp 42. -/
theorem sync_timestamp_contract_witness :
    CacheService.get_last_sync_timestamp false
        (CacheService.set_last_sync_timestamp false ⟨[], []⟩ "orders" 42) "orders" = PyVal.int 42 ∧
    CacheService.get_last_sync_timestamp false ⟨[], []⟩ "orders" = PyVal.null :=
  ⟨(sync_timestamp_contract ⟨[], []⟩ "orders" 42).2.1,
   (sync_timestamp_contract ⟨[], []⟩ "orders" 42).2.2 rfl⟩

/--
Claim C7: the serialization used by set and publish is lossless on
every value built only from JSON primitives (the canonical form equals
the value, so deserialization returns it unchanged), always produces a
JSON-only canonical form, degrades every non-JSON-serializable
component to its string representation, and is deterministic: equal
inputs give the identical serialized form.
-/
theorem serialization_contract :
    (∀ v : PyVal, jsonOnly v = true → serialize v = v) ∧
    (∀ v : PyVal, jsonOnly (serialize v) = true) ∧
    (∀ s : String, serialize (PyVal.other s) = PyVal.str s) ∧
    (∀ v w : PyVal, v = w → serialize v = serialize w) :=
  ⟨serialize_of_jsonOnly, jsonOnly_serialize, fun _ => rfl, fun _ _ h => congrArg serialize h⟩

/-- Witness for C7 at a concrete JSON object and a concrete integer. -/
theorem serialization_contract_witness :
    jsonOnly (PyVal.dict [("a", PyVal.list [PyVal.int 1, PyVal.null])]) = true ∧
    serialize (PyVal.dict [("a", PyVal.list [PyVal.int 1, PyVal.null])]) =
      PyVal.dict [("a", PyVal.list [PyVal.int 1, PyVal.null])] ∧
    serialize (PyVal.int 7) = serialize (PyVal.int 7) :=
  ⟨rfl, serialization_contract.1 _ rfl, serialization_contract.2.2.2 (PyVal.int 7) (PyVal.int 7) rfl⟩

/-- After the pool exists, every get_redis call returns it and constructs nothing. -/
theorem runGetRedis_some (n r c : Nat) :
    runGetRedis n ⟨some r, c⟩ = (List.replicate n r, ⟨some r, c⟩) := by
  induction n with
  | zero => rfl
  | succ m ih => simp [runGetRedis, get_redis, ih, List.replicate]

/--
Claim C8: for every positive number n of callers invoking get_redis for
the first time (each call body is atomic under the asyncio cooperative
scheduler because it has no await point, so every interleaving is a
sequence of whole calls), exactly one connection is constructed and
every call returns that same instance.
-/
theorem get_redis_single_construction (n : Nat) (hn : 1 ≤ n) :
    (runGetRedis n initialConnState).2.constructed = 1 ∧
    (runGetRedis n initialConnState).1 = List.replicate n 0 ∧
    (runGetRedis n initialConnState).2.redis_pool = some 0 := by
  obtain ⟨m, rfl⟩ : ∃ m, n = m + 1 := ⟨n - 1, by omega⟩
  simp [runGetRedis, get_redis, initialConnState, runGetRedis_some, List.replicate]

/-- Witness for C8 with three callers. -/
theorem get_redis_single_construction_witness :
    1 ≤ 3 ∧
    ((runGetRedis 3 initialConnState).2.constructed = 1 ∧
     (runGetRedis 3 initialConnState).1 = List.replicate 3 0 ∧
     (runGetRedis 3 initialConnState).2.redis_pool = some 0) :=
  ⟨by decide, get_redis_single_construction 3 (by decide)⟩

/--
Claim C9: set(k, v, 0) stores the entry with the MEDIUM default TTL of
300 seconds rather than 0, because the falsy TTL argument is replaced
by the default in ttl or MEDIUM_TTL; likewise set_all_products with a
TTL of 0 stores products:all at the LONG TTL of 3600 seconds.
-/
theorem ttl_zero_uses_default (st : SysState) (k : String) (v : PyVal) (l : List PyVal) :
    CacheService.set false st k v (some 0) =
      (true, { st with store := ⟨k, serialize v, 300⟩ :: st.store.filter (fun e => e.key != k) }) ∧
    CacheService.set_all_products false st l (some 0) =
      { st with store := ⟨"products:all", serialize (PyVal.list l), 3600⟩ ::
          st.store.filter (fun e => e.key != "products:all") } := by
  constructor
  · simp [CacheService.set, CacheService.setAttempt, pyOrInt, CacheService.MEDIUM_TTL]
  · simp [CacheService.set_all_products, CacheService.set, CacheService.setAttempt, pyOrInt,
      CacheService.LONG_TTL, CacheService.PREFIX_PRODUCTS]

/--
Claim C10: after a successful set(k, None) with the default TTL and
before expiry, get(k) returns the sentinel None, exactly as it does for
a key that was never cached: a cached JSON null is indistinguishable at
the get interface from an absent key.
-/
theorem cached_null_indistinguishable (st : SysState) (k : String)
    (habs : st.store.find? (fun e => e.key == k) = none) :
    CacheService.get false st k = PyVal.null ∧
    CacheService.set false st k PyVal.null none =
      (true, { st with store := ⟨k, PyVal.null, 300⟩ :: st.store.filter (fun e => e.key != k) }) ∧
    CacheService.get false (CacheService.set false st k PyVal.null none).2 k = PyVal.null := by
  have hset : CacheService.set false st k PyVal.null none =
      (true, { st with store := ⟨k, PyVal.null, 300⟩ :: st.store.filter (fun e => e.key != k) }) := by
    simp [CacheService.set, CacheService.setAttempt, pyOrInt, CacheService.MEDIUM_TTL, serialize]
  refine ⟨?_, hset, ?_⟩
  · simp [CacheService.get, CacheService.getAttempt, habs]
  · rw [hset]
    simp [CacheService.get, CacheService.getAttempt]

/-- Witness for C10 at the empty store and key k. -/
theorem cached_null_indistinguishable_witness :
    (SysState.mk [] []).store.find? (fun e => e.key == "k") = none ∧
    (CacheService.get false ⟨[], []⟩ "k" = PyVal.null ∧
     CacheService.set false ⟨[], []⟩ "k" PyVal.null none =
       (true, { store := [⟨"k", PyVal.null, 300⟩], published := [] }) ∧
     CacheService.get false (CacheService.set false ⟨[], []⟩ "k" PyVal.null none).2 "k" =
       PyVal.null) :=
  ⟨rfl, cached_null_indistinguishable ⟨[], []⟩ "k" rfl⟩
